import Mathlib

/-!
Shallow embedding of the `mainapp` core of the `edzen12/ecom` storefront
(`src/shop/mainapp/models.py` and
`src/shop/mainapp/templatetags/specifications.py`), together with theorems
settling the specification claims about it.

Conventions of the embedding:
* Django model rows become Lean structures; `DecimalField` prices become `ℚ`,
  `PositiveIntegerField` becomes `Nat`.
* A fallible `save` (one that can raise) becomes a function into `Except`;
  the `ok` payload is what gets persisted, an `error` persists nothing.
* The polymorphic `content_object` of `CartProduct` is embedded as the
  already-resolved referenced product (only its `price` matters here).
-/

deriving instance DecidableEq for Except

namespace Ecom

/-- Python's `str.startswith(pre)`: the characters of `pre` form a prefix of
the characters of the string. -/
def pyStartsWith (s pre : String) : Bool :=
  pre.data.isPrefixOf s.data

/-! ### Images and `Product.save` validation (`models.py`, lines 88-121) -/

/-- An in-memory image as PIL exposes it: a width and a height in pixels. -/
structure Img where
  width : Nat
  height : Nat
deriving DecidableEq, Repr

/-- The exceptions `Product.save` can raise, plus the failure of
`Image.open` when no image file is attached. -/
inductive SaveError where
  | imageOpenError
  | minResolutionError
  | maxResolutionError
deriving DecidableEq, Repr

/-- `Product.MIN_RESOLUTION = (300, 300)`, unpacked in `save` as
`(min_height, min_width)`. -/
def MIN_RESOLUTION : Nat × Nat := (300, 300)

/-- `Product.MAX_RESOLUTION = (2500, 2500)`, unpacked in `save` as
`(max_height, max_width)`. -/
def MAX_RESOLUTION : Nat × Nat := (2500, 2500)

/-- The abstract `Product` base row: the fields `Product.save` touches.
`image` is `blank=True`, so a row may carry no image file. -/
structure Product where
  title : String
  slug : String
  image : Option Img
  price : ℚ
deriving DecidableEq

/-- `Product.save`: opens `self.image` (failing when none is attached),
raises `MinResolutionErrorException` when either dimension is below the
minimum, then `MaxResolutionErrorException` when either is above the
maximum, and otherwise persists the row unchanged. -/
def Product.save (p : Product) : Except SaveError Product :=
  match p.image with
  | none => .error .imageOpenError
  | some img =>
    let min_height := MIN_RESOLUTION.1
    let min_width := MIN_RESOLUTION.2
    let max_height := MAX_RESOLUTION.1
    let max_width := MAX_RESOLUTION.2
    if img.height < min_height || img.width < min_width then
      .error .minResolutionError
    else if img.height > max_height || img.width > max_width then
      .error .maxResolutionError
    else
      .ok p

/-! ### `CartProduct.save` pricing (`models.py`, lines 124-138) -/

/-- The product a `CartProduct`'s generic foreign key resolves to; only its
current `price` is read by `CartProduct.save`. -/
structure ContentObject where
  price : ℚ
deriving DecidableEq

/-- A `CartProduct` row: quantity, resolved referenced product, and the
stored `final_price` column. -/
structure CartProduct where
  qty : Nat
  content_object : ContentObject
  final_price : ℚ
deriving DecidableEq

/-- `CartProduct.save`: sets `final_price = qty * content_object.price`
and persists. -/
def CartProduct.save (cp : CartProduct) : CartProduct :=
  { cp with final_price := (cp.qty : ℚ) * cp.content_object.price }

/-! ### `LatestProductsManager` (`models.py`, lines 29-45) -/

/-- One row of some concrete model: the model's lowercase name (what Django
stores in `ContentType.model` and returns from `_meta.model_name`) and the
row's auto-increment primary key. -/
structure DbItem where
  model : String
  id : Nat
deriving DecidableEq, Repr

/-- The slice of the database `LatestProductsManager` reads: the
`ContentType` table (model names, in table order) and all rows of all
concrete models. -/
structure Db where
  contentTypes : List String
  rows : List DbItem
deriving DecidableEq, Repr

/-- Stable insertion of one row into a list sorted by descending `id`. -/
def insertDescById (x : DbItem) : List DbItem → List DbItem
  | [] => [x]
  | y :: ys => if x.id ≤ y.id then y :: insertDescById x ys else x :: y :: ys

/-- `order_by('-id')`: sort rows by descending primary key. -/
def orderByIdDesc : List DbItem → List DbItem
  | [] => []
  | x :: xs => insertDescById x (orderByIdDesc xs)

/-- Python's `sorted(l, key=..., reverse=True)` on a boolean key: a stable
sort, so the rows whose key is `True` come first in their original relative
order, followed by the rest in their original relative order. -/
def pySortedByBoolKeyRev (key : DbItem → Bool) (l : List DbItem) : List DbItem :=
  l.filter key ++ l.filter (fun x => !(key x))

/-- The body of the fetch loop: for each `ContentType` row whose model name
was requested, append the 5 most recent rows of that model. -/
def fetchLoop (db : Db) (ctModels : List String) : List DbItem :=
  ctModels.foldl
    (fun acc ct => acc ++ (orderByIdDesc (db.rows.filter (fun r => r.model == ct))).take 5)
    []

/-- `LatestProductsManager.get_products_for_main_page(*args, **kwargs)`:
fetch the latest five rows of each requested model, concatenated in
`ContentType`-table order; when `with_respect_to` is supplied, names an
existing `ContentType` and is among `args`, re-sort the concatenation with
Python's stable `sorted` on the key
`x.__class__._meta.model_name.startswith(with_respect_to)`, `reverse=True`. -/
def get_products_for_main_page (args : List String) (kwargs : Option String)
    (db : Db) : List DbItem :=
  let with_respect_to := kwargs
  let ct_models := db.contentTypes.filter (fun m => args.contains m)
  let products := fetchLoop db ct_models
  match with_respect_to with
  | none => products
  | some wrt =>
    if db.contentTypes.contains wrt then
      if args.contains wrt then
        pySortedByBoolKeyRev (fun x => pyStartsWith x.model wrt) products
      else products
    else products

/-! ### `CategoryManager.get_categories_for_left_sidebar` (`models.py`, lines 52-85) -/

/-- A `Category` row. -/
structure Category where
  id : Nat
  name : String
  slug : String
deriving DecidableEq, Repr

/-- `Category.get_absolute_url`: `reverse('category_detail', slug)`. The URL
configuration for this route is outside `src/`; only the shape of the string
matters to no claim, so the route pattern is fixed abstractly from the slug. -/
def Category.get_absolute_url (c : Category) : String :=
  "/category/" ++ c.slug ++ "/"

/-- `CategoryManager.CATEGORY_NAME_COUNT_NAME`: a static map from a
category's display name to the annotation attribute holding its count. -/
def CATEGORY_NAME_COUNT_NAME : List (String × String) :=
  [("Ноутбуки", "notebook__count"), ("Смартфоны", "smartphone__count")]

/-- A category annotated with `models.Count('notebook')` and
`models.Count('smartphone')`: the number of rows of each concrete model
whose foreign key points at this category. `notebooks` and `smartphones`
list the `category_id` of every notebook and smartphone row. -/
structure AnnotatedCategory where
  cat : Category
  notebook__count : Nat
  smartphone__count : Nat
deriving DecidableEq, Repr

/-- `self.get_queryset().annotate(*models)` applied to one category. -/
def annotate (notebooks smartphones : List Nat) (c : Category) : AnnotatedCategory :=
  { cat := c
    notebook__count := (notebooks.filter (fun i => i == c.id)).length
    smartphone__count := (smartphones.filter (fun i => i == c.id)).length }

/-- `getattr(c, attr)` on an annotated category, for the two annotation
attributes; any other attribute raises `AttributeError` (`none`). -/
def getCountAttr (a : AnnotatedCategory) (attr : String) : Option Nat :=
  if attr == "notebook__count" then some a.notebook__count
  else if attr == "smartphone__count" then some a.smartphone__count
  else none

/-- One entry of the sidebar data: `dict(name=..., url=..., count=...)`. -/
structure SidebarEntry where
  name : String
  url : String
  count : Nat
deriving DecidableEq, Repr

/-- The comprehension body for one category: look the display name up in
`CATEGORY_NAME_COUNT_NAME` (a missing name raises `KeyError`), read the
annotation attribute, and build the entry. -/
def entryFor (notebooks smartphones : List Nat) (c : Category) :
    Except String SidebarEntry :=
  match CATEGORY_NAME_COUNT_NAME.lookup c.name with
  | none => .error ("KeyError: " ++ c.name)
  | some attr =>
    match getCountAttr (annotate notebooks smartphones c) attr with
    | none => .error ("AttributeError: " ++ attr)
    | some n => .ok { name := c.name, url := c.get_absolute_url, count := n }

/-- A Python list comprehension whose body may raise: entries are built left
to right and the first exception aborts the whole call. -/
def buildEntries (notebooks smartphones : List Nat) :
    List Category → Except String (List SidebarEntry)
  | [] => .ok []
  | c :: cs =>
    match entryFor notebooks smartphones c with
    | .error e => .error e
    | .ok entry =>
      match buildEntries notebooks smartphones cs with
      | .error e => .error e
      | .ok rest => .ok (entry :: rest)

/-- `CategoryManager.get_categories_for_left_sidebar`: annotate every
category with both counts, then build `{name, url, count}` dictionaries,
picking the count attribute by the category's display name. -/
def get_categories_for_left_sidebar (cats : List Category)
    (notebooks smartphones : List Nat) : Except String (List SidebarEntry) :=
  buildEntries notebooks smartphones cats

/-! ### `Order` (`models.py`, lines 175-218) -/

def STATUS_NEW : String := "new"

def STATUS_IN_PROGRESS : String := "in_progress"

def STATUS_READY : String := "is_ready"

def STATUS_COMPLETED : String := "completed"

def BUYING_TYPE_SELF : String := "self"

def BUYING_TYPE_DELIVERY : String := "delivery"

/-- `Order.STATUS_CHOICES`: the declared (stored value, display label)
pairs for the `status` field. -/
def STATUS_CHOICES : List (String × String) :=
  [(STATUS_NEW, "Новый заказ"),
   (STATUS_IN_PROGRESS, "Заказ в обработке"),
   (STATUS_READY, "Заказ готов"),
   (STATUS_COMPLETED, "Заказ выполнен")]

/-- `Order.BUYING_TYPE_CHOICES`. -/
def BUYING_TYPE_CHOICES : List (String × String) :=
  [(BUYING_TYPE_SELF, "Самовывоз"), (BUYING_TYPE_DELIVERY, "Доставка")]

/-- An `Order` row; `status` and `buying_type` carry the field defaults
declared on the model. -/
structure Order where
  customerId : Nat
  first_name : String := ""
  last_name : String := ""
  phone : String := ""
  status : String := STATUS_NEW
  buying_type : String := BUYING_TYPE_SELF
deriving DecidableEq, Repr

/-- Creating an `Order` at checkout without supplying a status: every field
with a declared default takes it. -/
def Order.createAtCheckout (customerId : Nat) : Order :=
  { customerId := customerId }

/-! ### Specification table (`templatetags/specifications.py`) -/

/-- A `Smartphone` row, with the fields the smartphone specification table
reads. `sd` is the SD-card-present flag; `sd_volume` is the maximal
SD-card capacity. -/
structure Smartphone where
  diagonal : String
  display_type : String
  resolution : String
  accum_volume : String
  ram : String
  sd : Bool
  sd_volume : String
  main_cam : String
  front_cam : String
deriving DecidableEq, Repr

/-- `getattr(product, field)` on a smartphone, for the field names the
specification table uses; the boolean `sd` renders as Python's
`str(True)` / `str(False)`. -/
def smartphoneGetattr (s : Smartphone) (f : String) : String :=
  if f == "diagonal" then s.diagonal
  else if f == "display_type" then s.display_type
  else if f == "resolution" then s.resolution
  else if f == "accum_volume" then s.accum_volume
  else if f == "ram" then s.ram
  else if f == "sd" then (if s.sd then ("True") else ("False"))
  else if f == "sd_volume" then s.sd_volume
  else if f == "main_cam" then s.main_cam
  else if f == "front_cam" then s.front_cam
  else ("")

/-- `PRODUCT_SPEC['smartphone']` in its initial module state: the ordered
(label, attribute name) rows of the smartphone table. Python dicts keep
insertion order, so the dict is a list of pairs. -/
def PRODUCT_SPEC_smartphone : List (String × String) :=
  [("Диагональ", "diagonal"),
   ("Тип дисплея", "display_type"),
   ("Разрешение экрана", "resolution"),
   ("Объем батареи", "accum_volume"),
   ("Оперативная память", "ram"),
   ("SD карта", "sd"),
   ("Макс. объём встраиваемой памяти", "sd_volume"),
   ("Камера (МП)", "main_cam"),
   ("Фронтальная камера (МП)", "front_cam")]

/-- `dict.pop(k, None)`: drop the entry with key `k` when present, leave the
dict unchanged otherwise. -/
def dictPop (k : String) (l : List (String × String)) : List (String × String) :=
  l.filter (fun p => !(p.1 == k))

/-- `dict[k] = v`: overwrite in place when the key is present (keeping its
position), append otherwise. -/
def dictSet (k v : String) (l : List (String × String)) : List (String × String) :=
  if l.any (fun p => p.1 == k) then
    l.map (fun p => if p.1 == k then (k, v) else p)
  else l ++ [(k, v)]

/-- `get_product_spec(product, 'smartphone')` down to its row structure:
one (label, rendered value) row per entry of the current spec dict, in
order. (The HTML output wraps exactly these rows in `TABLE_CONTENT`
markup between `TABLE_HEAD` and `TABLE_TAIL`.) -/
def get_product_spec (s : Smartphone) (spec : List (String × String)) :
    List (String × String) :=
  spec.map (fun p => (p.1, smartphoneGetattr s p.2))

/-- The `product_spec` filter on a `Smartphone`: first mutate the shared
`PRODUCT_SPEC['smartphone']` dict — `pop('Максимальный объем SD карты', None)`
when `sd` is false, re-assign the `'Макс. объём встраиваемой памяти'` key
when `sd` is true — then render the rows from the mutated dict. Returns the
rendered rows together with the new state of the shared dict. -/
def product_spec (s : Smartphone) (spec : List (String × String)) :
    List (String × String) × List (String × String) :=
  let spec1 :=
    if !s.sd then dictPop ("Максимальный объем SD карты") spec
    else dictSet ("Макс. объём встраиваемой памяти") ("sd_volume") spec
  (get_product_spec s spec1, spec1)

/-! ## Theorems for the claims -/

/-- Claim C1: saving a `CartProduct` sets `final_price` to `qty` times the
referenced product's current price, unconditionally overwriting any
previously stored `final_price`, for every quantity ≥ 1 and price ≥ 0. -/
theorem cartProduct_save_sets_final_price (cp : CartProduct)
    (_hq : 1 ≤ cp.qty) (_hp : 0 ≤ cp.content_object.price) :
    cp.save.final_price = (cp.qty : ℚ) * cp.content_object.price ∧
    ∀ old : ℚ,
      (CartProduct.save { cp with final_price := old }).final_price
        = (cp.qty : ℚ) * cp.content_object.price :=
  ⟨rfl, fun _ => rfl⟩

/-- Witness for C1: quantity 3 at price 5 yields final price 15 whatever
was stored before the save. -/
theorem cartProduct_save_sets_final_price_witness :
    (CartProduct.save ⟨3, ⟨5⟩, 999⟩).final_price = (3 : ℚ) * 5 ∧
    (3 : ℚ) * 5 = 15 :=
  ⟨(cartProduct_save_sets_final_price ⟨3, ⟨5⟩, 999⟩ (by norm_num) (by norm_num)).1,
   by norm_num⟩

/-- Counterexample to claim C2 as stated: on an image that is 3000 px wide
but only 100 px high, one dimension exceeds 2500 px, yet the save raises the
"too small" error and not the "too large" one. -/
theorem product_save_conflicting_bounds_counterexample :
    2500 < (3000 : Nat) ∧ (100 : Nat) < 300 ∧
    Product.save ⟨"t", "s", some ⟨3000, 100⟩, 10⟩ = .error .minResolutionError ∧
    Product.save ⟨"t", "s", some ⟨3000, 100⟩, 10⟩ ≠ .error .maxResolutionError := by
  refine ⟨by norm_num, by norm_num, rfl, by decide⟩

/-- Claim C2 (amended): if either dimension is below 300 px the save raises
the "too small" error; if either dimension is above 2500 px *and neither is
below 300 px* it raises the "too large" error; if both dimensions lie within
[300, 2500] the save succeeds and persists the row; in the error cases
nothing is persisted (the `ok` payload is the only thing persisted). -/
theorem product_save_resolution_cases (p : Product) (img : Img)
    (himg : p.image = some img) :
    ((img.height < 300 ∨ img.width < 300) → p.save = .error .minResolutionError) ∧
    ((2500 < img.height ∨ 2500 < img.width) → 300 ≤ img.height → 300 ≤ img.width →
      p.save = .error .maxResolutionError) ∧
    (300 ≤ img.height → img.height ≤ 2500 → 300 ≤ img.width → img.width ≤ 2500 →
      p.save = .ok p) := by
  unfold Product.save
  rw [himg]
  simp only [MIN_RESOLUTION, MAX_RESOLUTION]
  refine ⟨fun h => ?_, fun h h1 h2 => ?_, fun h1 h2 h3 h4 => ?_⟩
  · have : (decide (img.height < 300) || decide (img.width < 300)) = true := by
      simp only [Bool.or_eq_true, decide_eq_true_eq]; omega
    simp [this]
  · have hno : (decide (img.height < 300) || decide (img.width < 300)) = false := by
      simp only [Bool.or_eq_false_iff, decide_eq_false_iff_not]; omega
    have hyes : (decide (img.height > 2500) || decide (img.width > 2500)) = true := by
      simp only [Bool.or_eq_true, decide_eq_true_eq]; omega
    simp [hno, hyes]
  · have hno : (decide (img.height < 300) || decide (img.width < 300)) = false := by
      simp only [Bool.or_eq_false_iff, decide_eq_false_iff_not]; omega
    have hno2 : (decide (img.height > 2500) || decide (img.width > 2500)) = false := by
      simp only [Bool.or_eq_false_iff, decide_eq_false_iff_not]; omega
    simp [hno, hno2]

/-- Witness for the amended C2: a 100×100 image raises "too small", a
3000×3000 image raises "too large", and a 500×500 image saves. -/
theorem product_save_resolution_cases_witness :
    Product.save ⟨"a", "a", some ⟨100, 100⟩, 1⟩ = .error .minResolutionError ∧
    Product.save ⟨"a", "a", some ⟨3000, 3000⟩, 1⟩ = .error .maxResolutionError ∧
    Product.save ⟨"a", "a", some ⟨500, 500⟩, 1⟩ = .ok ⟨"a", "a", some ⟨500, 500⟩, 1⟩ :=
  ⟨(product_save_resolution_cases ⟨"a", "a", some ⟨100, 100⟩, 1⟩ ⟨100, 100⟩ rfl).1
      (Or.inl (by norm_num)),
   (product_save_resolution_cases ⟨"a", "a", some ⟨3000, 3000⟩, 1⟩ ⟨3000, 3000⟩ rfl).2.1
      (Or.inl (by norm_num)) (by norm_num) (by norm_num),
   (product_save_resolution_cases ⟨"a", "a", some ⟨500, 500⟩, 1⟩ ⟨500, 500⟩ rfl).2.2
      (by norm_num) (by norm_num) (by norm_num) (by norm_num)⟩

/-- Claim C9: when an image violates both bounds at once (one dimension
below 300 px, one above 2500 px), `Product.save` raises the "too small"
error: the minimum-resolution check is evaluated first and takes priority. -/
theorem product_save_min_check_first (p : Product) (img : Img)
    (himg : p.image = some img)
    (hmin : img.height < 300 ∨ img.width < 300)
    (hmax : 2500 < img.height ∨ 2500 < img.width) :
    p.save = .error .minResolutionError := by
  unfold Product.save
  rw [himg]
  simp only [MIN_RESOLUTION, MAX_RESOLUTION]
  have : (decide (img.height < 300) || decide (img.width < 300)) = true := by
    simp only [Bool.or_eq_true, decide_eq_true_eq]; omega
  simp [this]

/-- Witness for C9: a 3000×100 image (width above maximum, height below
minimum) raises the "too small" error. -/
theorem product_save_min_check_first_witness :
    Product.save ⟨"t", "s", some ⟨3000, 100⟩, 10⟩ = .error .minResolutionError :=
  product_save_min_check_first ⟨"t", "s", some ⟨3000, 100⟩, 10⟩ ⟨3000, 100⟩ rfl
    (Or.inl (by norm_num)) (Or.inr (by norm_num))

/-- Claim C10: `Product.save` opens the image before any check, so a product
with no attached image fails to save (nothing is persisted), and every
successfully persisted product carries an image whose dimensions lie within
the resolution bounds. -/
theorem product_save_requires_image (p : Product) :
    (p.image = none → p.save = .error .imageOpenError) ∧
    (∀ q, p.save = .ok q →
      q = p ∧ ∃ img, p.image = some img ∧
        300 ≤ img.height ∧ img.height ≤ 2500 ∧ 300 ≤ img.width ∧ img.width ≤ 2500) := by
  constructor
  · intro h
    unfold Product.save
    rw [h]
  · intro q hq
    match himg : p.image with
    | none =>
      unfold Product.save at hq
      rw [himg] at hq
      exact absurd hq (by simp)
    | some img =>
      unfold Product.save at hq
      rw [himg] at hq
      simp only [MIN_RESOLUTION, MAX_RESOLUTION] at hq
      by_cases h1 : (decide (img.height < 300) || decide (img.width < 300)) = true
      · rw [if_pos h1] at hq; exact absurd hq (by simp)
      · rw [if_neg h1] at hq
        by_cases h2 : (decide (img.height > 2500) || decide (img.width > 2500)) = true
        · rw [if_pos h2] at hq; exact absurd hq (by simp)
        · rw [if_neg h2] at hq
          simp only [Bool.or_eq_true, decide_eq_true_eq, not_or] at h1 h2
          refine ⟨by injection hq with h; exact h.symm, img, rfl, by omega⟩

/-- Witness for C10: a product whose optional image field is empty fails to
save with the image-open error. -/
theorem product_save_requires_image_witness :
    Product.save ⟨"t", "s", none, 10⟩ = .error .imageOpenError :=
  (product_save_requires_image ⟨"t", "s", none, 10⟩).1 rfl

/-- Claim C3 (code defect, evaluated at the failing input): for a smartphone
with `sd = false` the rendered specification table STILL contains the
SD-capacity row — the claim says it is omitted — because the code pops the
key "Максимальный объем SD карты", which never occurs in
`PRODUCT_SPEC['smartphone']` (third conjunct); with `sd = true` the row is
present with the instance's `sd_volume`, as the claim says. -/
theorem product_spec_sd_row_not_omitted :
    (("Макс. объём встраиваемой памяти", "128GB")
        ∈ (product_spec ⟨"6.1", "OLED", "1080x2340", "3000", "4GB", false, "128GB", "12", "8"⟩
            PRODUCT_SPEC_smartphone).1) ∧
    (("Макс. объём встраиваемой памяти", "256GB")
        ∈ (product_spec ⟨"6.1", "OLED", "1080x2340", "3000", "4GB", true, "256GB", "12", "8"⟩
            PRODUCT_SPEC_smartphone).1) ∧
    PRODUCT_SPEC_smartphone.all (fun p => !(p.1 == "Максимальный объем SD карты")) = true := by
  decide

/-- Counterexample to claim C8 as stated: the third declared status value is
the string "is_ready", which lies outside the claimed set
{new, in_progress, ready, completed}, and "ready" itself is not a declared
status value. -/
theorem order_status_ready_counterexample :
    ("is_ready" ∈ STATUS_CHOICES.map Prod.fst) ∧
    ("is_ready" ∉ ["new", "in_progress", "ready", "completed"]) ∧
    ("ready" ∉ STATUS_CHOICES.map Prod.fst) := by
  decide

/-- Claim C8 (amended): an `Order`'s status field takes values only in
{new, in_progress, is_ready, completed} (the declared choice values), and an
order created at checkout with no status supplied has status "new". -/
theorem order_status_values (customerId : Nat) :
    STATUS_CHOICES.map Prod.fst
      = [STATUS_NEW, STATUS_IN_PROGRESS, STATUS_READY, STATUS_COMPLETED] ∧
    STATUS_CHOICES.map Prod.fst = ["new", "in_progress", "is_ready", "completed"] ∧
    (Order.createAtCheckout customerId).status = "new" :=
  ⟨rfl, by decide, rfl⟩

/-- When the sidebar comprehension finishes without an exception, every
category of the input produced one of the returned entries. -/
theorem buildEntries_ok_mem (notebooks smartphones : List Nat) :
    ∀ (cats : List Category) (data : List SidebarEntry),
      buildEntries notebooks smartphones cats = .ok data →
      ∀ c ∈ cats, ∃ e ∈ data, entryFor notebooks smartphones c = .ok e := by
  intro cats
  induction cats with
  | nil => intro data _ c hc; exact absurd hc (List.not_mem_nil c)
  | cons a as ih =>
    intro data h c hc
    unfold buildEntries at h
    cases hfa : entryFor notebooks smartphones a with
    | error e => rw [hfa] at h; exact absurd h (by simp)
    | ok ea =>
      rw [hfa] at h
      cases hrest : buildEntries notebooks smartphones as with
      | error e => rw [hrest] at h; exact absurd h (by simp)
      | ok rest =>
        rw [hrest] at h
        injection h with h
        subst h
        rcases List.mem_cons.mp hc with hceq | hcmem
        · exact ⟨ea, List.mem_cons_self _ _, hceq ▸ hfa⟩
        · obtain ⟨e, he, hfe⟩ := ih rest hrest c hcmem
          exact ⟨e, List.mem_cons_of_mem _ he, hfe⟩

/-- Claim C5: a category whose display name is neither "Ноутбуки" nor
"Смартфоны" makes `get_categories_for_left_sidebar` raise an uncaught
missing-key lookup failure instead of returning data. -/
theorem sidebar_unknown_label_raises (cats : List Category)
    (notebooks smartphones : List Nat) (c : Category) (hc : c ∈ cats)
    (h1 : c.name ≠ "Ноутбуки") (h2 : c.name ≠ "Смартфоны") :
    ∃ msg, get_categories_for_left_sidebar cats notebooks smartphones = .error msg := by
  cases hres : buildEntries notebooks smartphones cats with
  | error msg => exact ⟨msg, hres⟩
  | ok data =>
    exfalso
    obtain ⟨e, _, hfe⟩ := buildEntries_ok_mem notebooks smartphones cats data hres c hc
    have hb1 : (c.name == "Ноутбуки") = false := by simp [h1]
    have hb2 : (c.name == "Смартфоны") = false := by simp [h2]
    have hlk : CATEGORY_NAME_COUNT_NAME.lookup c.name = none := by
      simp [CATEGORY_NAME_COUNT_NAME, List.lookup, hb1, hb2]
    unfold entryFor at hfe
    rw [hlk] at hfe
    exact absurd hfe (by simp)

/-- Witness for C5: one category named "Техника" makes the sidebar call
fail with a lookup error. -/
theorem sidebar_unknown_label_raises_witness :
    ∃ msg, get_categories_for_left_sidebar [⟨1, "Техника", "tech"⟩] [] [] = .error msg :=
  sidebar_unknown_label_raises [⟨1, "Техника", "tech"⟩] [] [] ⟨1, "Техника", "tech"⟩
    (by decide) (by decide) (by decide)

/-- Claim C6: when the sidebar call succeeds, a category named exactly
"Ноутбуки" contributes a `{name, url, count}` entry whose count is the
number of notebook rows pointing at it, and a category named "Смартфоны"
contributes its smartphone count. -/
theorem sidebar_known_label_counts (cats : List Category)
    (notebooks smartphones : List Nat) (c : Category) (data : List SidebarEntry)
    (hc : c ∈ cats)
    (hok : get_categories_for_left_sidebar cats notebooks smartphones = .ok data) :
    (c.name = "Ноутбуки" →
      (⟨c.name, c.get_absolute_url,
        (notebooks.filter (fun i => i == c.id)).length⟩ : SidebarEntry) ∈ data) ∧
    (c.name = "Смартфоны" →
      (⟨c.name, c.get_absolute_url,
        (smartphones.filter (fun i => i == c.id)).length⟩ : SidebarEntry) ∈ data) := by
  obtain ⟨e, he, hfe⟩ := buildEntries_ok_mem notebooks smartphones cats data hok c hc
  constructor
  · intro hname
    unfold entryFor at hfe
    rw [hname] at hfe
    have hlk : CATEGORY_NAME_COUNT_NAME.lookup ("Ноутбуки") = some ("notebook__count") := by
      decide
    rw [hlk] at hfe
    simp only [getCountAttr, annotate, beq_self_eq_true, if_pos] at hfe
    rw [hname]
    have : e = ⟨"Ноутбуки", c.get_absolute_url,
        (notebooks.filter (fun i => i == c.id)).length⟩ := by
      injection hfe with h; exact h.symm
    exact this ▸ he
  · intro hname
    unfold entryFor at hfe
    rw [hname] at hfe
    have hlk : CATEGORY_NAME_COUNT_NAME.lookup ("Смартфоны") = some ("smartphone__count") := by
      decide
    rw [hlk] at hfe
    simp only [getCountAttr, annotate] at hfe
    rw [hname]
    have : e = ⟨"Смартфоны", c.get_absolute_url,
        (smartphones.filter (fun i => i == c.id)).length⟩ := by
      simp only [show ("smartphone__count" == "notebook__count") = false from by decide,
        Bool.false_eq_true, if_false, beq_self_eq_true, if_pos] at hfe
      injection hfe with h; exact h.symm
    exact this ▸ he

/-- Witness for C6: a category named "Ноутбуки" with 3 notebook rows yields
the sidebar entry with count 3. -/
theorem sidebar_known_label_counts_witness :
    (⟨"Ноутбуки", "/category/noutbuki/", 3⟩ : SidebarEntry)
      ∈ [(⟨"Ноутбуки", "/category/noutbuki/", 3⟩ : SidebarEntry)] :=
  (sidebar_known_label_counts [⟨1, "Ноутбуки", "noutbuki"⟩] [1, 1, 1] []
    ⟨1, "Ноутбуки", "noutbuki"⟩ [⟨"Ноутбуки", "/category/noutbuki/", 3⟩]
    (by decide) (by rfl)).1 rfl

/-- Folding `acc ++ g x` over a list is the concatenation of the images. -/
theorem foldl_append_eq_join {α β : Type} (g : α → List β) :
    ∀ (l : List α) (init : List β),
      l.foldl (fun acc x => acc ++ g x) init = init ++ (l.map g).flatten := by
  intro l
  induction l with
  | nil => intro init; simp
  | cons a as ih => intro init; simp [List.foldl, ih]

/-- `insertDescById` permutes the inserted element into the list. -/
theorem insertDescById_perm (x : DbItem) (l : List DbItem) :
    List.Perm (insertDescById x l) (x :: l) := by
  induction l with
  | nil => exact List.Perm.refl _
  | cons y ys ih =>
    unfold insertDescById
    by_cases h : x.id ≤ y.id
    · rw [if_pos h]
      exact (ih.cons y).trans (List.Perm.swap x y ys)
    · rw [if_neg h]

/-- `orderByIdDesc` is a permutation of its input: `order_by('-id')`
reorders but neither drops nor duplicates rows. -/
theorem orderByIdDesc_perm (l : List DbItem) : List.Perm (orderByIdDesc l) l := by
  induction l with
  | nil => exact List.Perm.refl _
  | cons x xs ih =>
    exact (insertDescById_perm x (orderByIdDesc xs)).trans (ih.cons x)

/-- Inserting into a descending-by-id sorted list keeps it sorted. -/
theorem insertDescById_sorted (x : DbItem) (l : List DbItem)
    (h : l.Sorted (fun a b => b.id ≤ a.id)) :
    (insertDescById x l).Sorted (fun a b => b.id ≤ a.id) := by
  induction l with
  | nil => simp [insertDescById]
  | cons y ys ih =>
    rw [List.sorted_cons] at h
    unfold insertDescById
    by_cases hxy : x.id ≤ y.id
    · rw [if_pos hxy]
      rw [List.sorted_cons]
      refine ⟨fun b hb => ?_, ih h.2⟩
      rcases List.mem_cons.mp ((insertDescById_perm x ys).mem_iff.mp hb) with hbx | hbys
      · rw [hbx]; exact hxy
      · exact h.1 b hbys
    · rw [if_neg hxy]
      rw [List.sorted_cons]
      refine ⟨fun b hb => ?_, List.sorted_cons.mpr h⟩
      rcases List.mem_cons.mp hb with hby | hbys
      · rw [hby]; omega
      · have := h.1 b hbys; omega

/-- `orderByIdDesc` sorts by descending id: its output is pairwise
non-increasing in `id`. -/
theorem orderByIdDesc_sorted (l : List DbItem) :
    (orderByIdDesc l).Sorted (fun a b => b.id ≤ a.id) := by
  induction l with
  | nil => simp [orderByIdDesc]
  | cons x xs ih => exact insertDescById_sorted x (orderByIdDesc xs) ih

/-- Claim C7: with no `with_respect_to`, the result is the concatenation,
over the requested model names that exist in the `ContentType` table, of
the first five rows of that model in descending-id order; and the
descending-id order is a genuine sort (a pairwise id-non-increasing
permutation) of the model's rows. -/
theorem getProducts_concatenates_latest_five (args : List String) (db : Db) :
    (get_products_for_main_page args none db
      = ((db.contentTypes.filter (fun m => args.contains m)).map
          (fun ct => (orderByIdDesc (db.rows.filter (fun r => r.model == ct))).take 5)).flatten) ∧
    (∀ ct, List.Perm (orderByIdDesc (db.rows.filter (fun r => r.model == ct)))
      (db.rows.filter (fun r => r.model == ct))) ∧
    (∀ ct, (orderByIdDesc (db.rows.filter (fun r => r.model == ct))).Sorted
      (fun a b => b.id ≤ a.id)) := by
  refine ⟨?_, fun ct => orderByIdDesc_perm _, fun ct => orderByIdDesc_sorted _⟩
  have hnone : get_products_for_main_page args none db
      = fetchLoop db (db.contentTypes.filter (fun m => args.contains m)) := rfl
  rw [hnone]
  unfold fetchLoop
  rw [foldl_append_eq_join]
  simp

/-- Counterexample to claim C4 as stated: with the existing content types
`cart` and `cartproduct` (in that table order), requesting both with
`with_respect_to='cart'` leaves a `cartproduct` row ahead of a `cart` row,
because the sort key is `model_name.startswith('cart')`, which is also true
of `cartproduct`; so not every instance of the respect-to type precedes the
instances of other types. -/
theorem getProducts_respect_to_counterexample :
    get_products_for_main_page ["cart", "cartproduct"] (some ("cart"))
        ⟨["cartproduct", "cart"], [⟨"cartproduct", 1⟩, ⟨"cart", 2⟩]⟩
      = [⟨"cartproduct", 1⟩, ⟨"cart", 2⟩] ∧
    ("cart" ∈ ["cart", "cartproduct"]) ∧
    (⟨"cartproduct", 1⟩ : DbItem).model ≠ "cart" ∧
    (⟨"cart", 2⟩ : DbItem).model = "cart" := by
  decide

/-- Claim C4 (amended): when `with_respect_to` is among the requested type
names and resolves to an existing content type, the result is the
concatenated fetch stably re-sorted so that every instance whose model name
starts with the `with_respect_to` string precedes all instances whose model
name does not, relative order within each group unchanged (a stable
partition of the unmodified concatenation); when `with_respect_to` is not
among the requested names, the unmodified concatenation is returned and no
error is raised. -/
theorem getProducts_with_respect_to (args : List String) (wrt : String) (db : Db) :
    (args.contains wrt = true → db.contentTypes.contains wrt = true →
      get_products_for_main_page args (some wrt) db
        = (get_products_for_main_page args none db).filter
            (fun x => pyStartsWith x.model wrt)
          ++ (get_products_for_main_page args none db).filter
            (fun x => !(pyStartsWith x.model wrt))) ∧
    (args.contains wrt = false →
      get_products_for_main_page args (some wrt) db
        = get_products_for_main_page args none db) := by
  constructor
  · intro h1 h2
    have h1m : wrt ∈ args := by simpa using h1
    have h2m : wrt ∈ db.contentTypes := by simpa using h2
    simp [get_products_for_main_page, pySortedByBoolKeyRev, h1m, h2m]
  · intro h1
    have h1m : wrt ∉ args := by simpa using h1
    simp [get_products_for_main_page, h1m]

/-- Witness for the amended C4: on a database holding two notebooks and one
smartphone, requesting both with `with_respect_to='smartphone'` yields the
stable partition with the smartphone first, and a `with_respect_to` that is
not among the requested names leaves the concatenation unchanged. -/
theorem getProducts_with_respect_to_witness :
    (get_products_for_main_page ["notebook", "smartphone"] (some ("smartphone"))
        ⟨["notebook", "smartphone"], [⟨"notebook", 1⟩, ⟨"smartphone", 2⟩, ⟨"notebook", 3⟩]⟩
      = (get_products_for_main_page ["notebook", "smartphone"] none
          ⟨["notebook", "smartphone"], [⟨"notebook", 1⟩, ⟨"smartphone", 2⟩, ⟨"notebook", 3⟩]⟩).filter
          (fun x => pyStartsWith x.model ("smartphone"))
        ++ (get_products_for_main_page ["notebook", "smartphone"] none
          ⟨["notebook", "smartphone"], [⟨"notebook", 1⟩, ⟨"smartphone", 2⟩, ⟨"notebook", 3⟩]⟩).filter
          (fun x => !(pyStartsWith x.model ("smartphone")))) ∧
    (get_products_for_main_page ["notebook"] (some ("smartphone"))
        ⟨["notebook", "smartphone"], [⟨"notebook", 1⟩, ⟨"smartphone", 2⟩, ⟨"notebook", 3⟩]⟩
      = get_products_for_main_page ["notebook"] none
        ⟨["notebook", "smartphone"], [⟨"notebook", 1⟩, ⟨"smartphone", 2⟩, ⟨"notebook", 3⟩]⟩) :=
  ⟨(getProducts_with_respect_to ["notebook", "smartphone"] "smartphone"
      ⟨["notebook", "smartphone"], [⟨"notebook", 1⟩, ⟨"smartphone", 2⟩, ⟨"notebook", 3⟩]⟩).1
      (by decide) (by decide),
   (getProducts_with_respect_to ["notebook"] "smartphone"
      ⟨["notebook", "smartphone"], [⟨"notebook", 1⟩, ⟨"smartphone", 2⟩, ⟨"notebook", 3⟩]⟩).2
      (by decide)⟩

end Ecom



